import Mathlib

/-!
Shallow embedding of `src/lib.rs` of the `webxr-rust` repository.

The program is a WebXR application with three pieces of control flow:

* `XrApp::init` — an async negotiation: capability query
  (`is_session_supported`), session request, WebGL-layer bind
  (`XrWebGlLayer::new_with_web_gl2_rendering_context` + `update_render_state`),
  reference-space request, and finally the publication of the session and
  reference space into the two shared `Rc<RefCell<Option<_>>>` cells.
* `XrApp::start` — one-time GPU setup (shader compile/link with diagnostic
  logging, depth/cull enable, geometry upload, attribute setup) followed by
  registration of the per-frame closure via `request_animation_frame`.
* the frame closure — per tick: framebuffer bind, clear, viewer-pose lookup,
  model/projection/view uniform uploads, one viewport+draw per eye, re-arm.

Host-runtime and WebGL responses (promise results, `Option` returns of the
`web_sys` calls) are modelled as explicit environment records; each Rust
`.unwrap()` on an environment-supplied `Option`/`Result` becomes a `panicked`
outcome in the model.  Every GL call with an observable effect is recorded in
an operation trace; `log!` output is recorded in a log trace.
-/

/-- WebGL enum `VERTEX_SHADER`. -/
def VERTEX_SHADER : Nat := 0x8B31

/-- WebGL enum `FRAGMENT_SHADER`. -/
def FRAGMENT_SHADER : Nat := 0x8B30

/-- WebGL enum `DEPTH_TEST`. -/
def DEPTH_TEST : Nat := 0x0B71

/-- WebGL enum `CULL_FACE`. -/
def CULL_FACE : Nat := 0x0B44

/-- WebGL enum `FRAMEBUFFER`. -/
def FRAMEBUFFER : Nat := 0x8D40

/-- WebGL enum `COLOR_BUFFER_BIT`. -/
def COLOR_BUFFER_BIT : Nat := 0x4000

/-- WebGL enum `ARRAY_BUFFER`. -/
def ARRAY_BUFFER : Nat := 0x8892

/-- WebGL enum `STATIC_DRAW`. -/
def STATIC_DRAW : Nat := 0x88E4

/-- WebGL enum `FLOAT`. -/
def FLOAT : Nat := 0x1406

/-- WebGL enum `TRIANGLES` (used by `draw_arrays`). -/
def TRIANGLES : Nat := 0x0004

/-- One line written through the `log!` macro (the diagnostic sink). -/
inductive LogMsg
  | startingWebXr                      -- "Starting WebXR..."
  | xrSessionNotSupported              -- "XR session not supported"
  | programLinkError (infoLog : String)   -- "program link errror:{}"
  | vsCompileError (infoLog : String)     -- "vs compile errror:{}"
  | fsCompileError (infoLog : String)     -- "fs compile errror:{}"
deriving DecidableEq

/-- The two shared cells of `XrApp`: `session : Rc<RefCell<Option<XrSession>>>`
and `ref_space : Rc<RefCell<Option<XrReferenceSpace>>>`.  Handles are
identifiers chosen by the host runtime, modelled as `Nat`. -/
structure SharedState where
  session : Option Nat
  refSpace : Option Nat
deriving DecidableEq

/-- Host-runtime requests issued by `XrApp::init`, in issue order. -/
inductive HostCall
  | isSessionSupported        -- `xr.is_session_supported(session_mode)`
  | requestSession            -- `xr.request_session_with_options(..)`
  | createWebGlLayer          -- `XrWebGlLayer::new_with_web_gl2_rendering_context(..)`
  | updateRenderState         -- `xr_session.update_render_state_with_state(..)`
  | requestReferenceSpace     -- `xr_session.request_reference_space(BoundedFloor)`
deriving DecidableEq

instance {ε α : Type} [DecidableEq ε] [DecidableEq α] : DecidableEq (Except ε α) := fun x y =>
  match x, y with
  | .error a, .error b =>
    if h : a = b then isTrue (congrArg Except.error h)
    else isFalse (fun hh => h (Except.error.inj hh))
  | .error _, .ok _ => isFalse (fun hh => Except.noConfusion hh)
  | .ok _, .error _ => isFalse (fun hh => Except.noConfusion hh)
  | .ok a, .ok b =>
    if h : a = b then isTrue (congrArg Except.ok h)
    else isFalse (fun hh => h (Except.ok.inj hh))

/-- Responses of the host runtime to the negotiation's fallible operations.
`Except.error e` models a rejected promise / `Err` value carrying `e`. -/
structure InitEnv where
  supportsSession : Except Nat Bool
  sessionRequest : Except Nat Nat
  glLayer : Except Nat Nat
  refSpaceRequest : Except Nat Nat
deriving DecidableEq

/-- How the promise returned by `init` settles: `resolved b` is
`Ok(JsValue::from(b))`, `rejected e` is the `Err` propagated by the `?`
operator, `panicked` is an `unwrap()` on an `Err` inside the future. -/
inductive InitOutcome
  | resolved (value : Bool)
  | rejected (e : Nat)
  | panicked
deriving DecidableEq

/-- A complete run of the negotiation: log lines, host calls issued, the
shared-cell states observable by the event loop at each suspension point
(`await`), the settlement of the returned promise, and the final cell state. -/
structure InitRun where
  logs : List LogMsg
  calls : List HostCall
  observable : List SharedState
  outcome : InitOutcome
  final : SharedState
deriving DecidableEq

/-- `XrApp::init` (src/lib.rs lines 72–119).  The async block suspends at the
three `await`s; the cell states at those suspension points are collected in
`observable`.  `supports_session.unwrap()`, `xr_session.unwrap()` and
`xr_ref_space.unwrap()` panic on rejected promises; the `?` on the WebGL-layer
constructor propagates its error as a rejection.  Both cells are replaced only
after the last `await`, in straight-line code. -/
def XrApp.init (env : InitEnv) (s0 : SharedState) : InitRun :=
  let logs0 := [LogMsg.startingWebXr]
  let calls0 := [HostCall.isSessionSupported]
  match env.supportsSession with
  | .error _ => ⟨logs0, calls0, [s0], .panicked, s0⟩
  | .ok supported =>
    if supported = false then
      ⟨logs0 ++ [LogMsg.xrSessionNotSupported], calls0, [s0], .resolved false, s0⟩
    else
      let calls1 := calls0 ++ [HostCall.requestSession]
      match env.sessionRequest with
      | .error _ => ⟨logs0, calls1, [s0, s0], .panicked, s0⟩
      | .ok sess =>
        let calls2 := calls1 ++ [HostCall.createWebGlLayer]
        match env.glLayer with
        | .error e => ⟨logs0, calls2, [s0, s0], .rejected e, s0⟩
        | .ok _ =>
          let calls3 := calls2 ++ [HostCall.updateRenderState, HostCall.requestReferenceSpace]
          match env.refSpaceRequest with
          | .error _ => ⟨logs0, calls3, [s0, s0, s0], .panicked, s0⟩
          | .ok rs => ⟨logs0, calls3, [s0, s0, s0], .resolved true, ⟨some sess, some rs⟩⟩

/-- Which uniform location a `uniform_matrix4fv_with_f32_array` call targets
(`model_location`, `view_location`, `projection_location`). -/
inductive UniformName
  | model
  | view
  | projection
deriving DecidableEq

/-- GL operations with an observable effect, as issued by `XrApp::start` and
the frame closure.  Matrix entries are modelled over `Int` (the concrete
matrices the program itself supplies are integral). -/
inductive GlOp
  | createProgram
  | createShader (ty : Nat)
  | shaderSource (shader : Nat) (src : String)
  | compileShader (shader : Nat)
  | attachShader (program shader : Nat)
  | linkProgram (program : Nat)
  | enable (cap : Nat)
  | useProgram (program : Nat)
  | createBuffer
  | bindBuffer (target : Nat) (buffer : Nat)
  | bufferData (target : Nat) (usage : Nat)
  | enableVertexAttribArray (index : Nat)
  | vertexAttribPointer (index : Nat) (size : Int) (ty : Nat) (normalized : Bool)
      (stride offset : Int)
  | bindFramebuffer (target : Nat) (framebuffer : Nat)
  | clearColor (r g b a : Int)
  | clear (mask : Nat)
  | uniformMatrix4fv (location : UniformName) (transpose : Bool) (data : List Int)
  | viewport (x y width height : Int)
  | drawArrays (mode : Nat) (first count : Int)
  | rearm                       -- `request_animation_frame(&sess, ..)`
deriving DecidableEq

/-- An `XrViewport`: result of `gl_layer.get_viewport(&view)`. -/
structure Viewport where
  x : Int
  y : Int
  width : Int
  height : Int
deriving DecidableEq

/-- Per-eye data of an `XrView`: its projection matrix, the matrix of the
inverse of its transform, and the viewport the layer reports for it
(`none` makes the closure's `get_viewport(..).unwrap()` panic). -/
structure XrView where
  projectionMatrix : List Int
  inverseTransformMatrix : List Int
  viewport : Option Viewport
deriving DecidableEq

/-- Host data consumed by one invocation of the frame closure: the render
state's base layer (whose `framebuffer()` is the `Nat`; `none` makes
`base_layer().unwrap()` panic) and the viewer pose with its two views
(`none` models `get_viewer_pose` returning no pose: tracking lost). -/
structure FrameEnv where
  baseLayer : Option Nat
  viewerPose : Option (XrView × XrView)
deriving DecidableEq

/-- Whether a modelled code path ran to completion or hit a panicking
`unwrap()`. -/
inductive StepResult
  | completed
  | panicked
deriving DecidableEq

/-- One invocation of the frame closure: the GL operations it issued, and
whether it completed or panicked. -/
structure FrameRun where
  ops : List GlOp
  result : StepResult
deriving DecidableEq

/-- The model matrix uploaded every tick (src/lib.rs lines 263–269). -/
def modelMatrix : List Int := [2, 0, 0, 0, 0, 2, 0, 0, 0, 0, 2, 0, 0, 0, 0, 1]

/-- The frame closure registered by `XrApp::start` (src/lib.rs lines 248–306),
reading the shared `ref_space` cell.  In source order: framebuffer bind,
clear-color set, clear, `ref_space` read (`as_ref().unwrap()` panics on an
empty cell), `get_viewer_pose(..).unwrap()` (panics when no pose), model
uniform upload, then per eye (index 0 then index 1): viewport lookup and set,
projection and view uniform uploads, a 3-vertex `TRIANGLES` draw; finally the
re-arm via `request_animation_frame`. -/
def frameStep (refSpace : Option Nat) (env : FrameEnv) : FrameRun :=
  match env.baseLayer with
  | none => ⟨[], .panicked⟩
  | some fb =>
    let ops0 := [GlOp.bindFramebuffer FRAMEBUFFER fb,
      GlOp.clearColor 0 0 0 1, GlOp.clear COLOR_BUFFER_BIT]
    match refSpace with
    | none => ⟨ops0, .panicked⟩
    | some _ =>
      match env.viewerPose with
      | none => ⟨ops0, .panicked⟩
      | some (v0, v1) =>
        let ops1 := ops0 ++ [GlOp.uniformMatrix4fv .model false modelMatrix]
        match v0.viewport with
        | none => ⟨ops1, .panicked⟩
        | some vp0 =>
          let ops2 := ops1 ++ [GlOp.viewport vp0.x vp0.y vp0.width vp0.height,
            GlOp.uniformMatrix4fv .projection false v0.projectionMatrix,
            GlOp.uniformMatrix4fv .view false v0.inverseTransformMatrix,
            GlOp.drawArrays TRIANGLES 0 3]
          match v1.viewport with
          | none => ⟨ops2, .panicked⟩
          | some vp1 =>
            ⟨ops2 ++ [GlOp.viewport vp1.x vp1.y vp1.width vp1.height,
              GlOp.uniformMatrix4fv .projection false v1.projectionMatrix,
              GlOp.uniformMatrix4fv .view false v1.inverseTransformMatrix,
              GlOp.drawArrays TRIANGLES 0 3,
              GlOp.rearm], .completed⟩

/-- The self-sustaining frame loop: each delivered tick runs the closure once;
a tick is delivered only while the previous step re-armed (completed), so a
panicking step ends the trace. -/
def runLoop (refSpace : Option Nat) : List FrameEnv → List GlOp
  | [] => []
  | e :: es =>
    let r := frameStep refSpace e
    match r.result with
    | .completed => r.ops ++ runLoop refSpace es
    | .panicked => r.ops

/-- The vertex shader source installed by `XrApp::start`. -/
def vsSource : String := "#version 300 es\nuniform mat4 model;\nuniform mat4 view;\nuniform mat4 projection;\nin vec3 vertexPosition;\nin vec3 vertexColor;\nout vec3 vColor;\nvoid main() \x7b\n    vColor = vertexColor;\n    gl_Position = projection * view * model * vec4(vertexPosition, 1.0);\n\x7d"

/-- The fragment shader source installed by `XrApp::start`. -/
def fsSource : String := "#version 300 es\nprecision highp float;\nin vec3 vColor;\nout vec4 fragmentColor;\nvoid main() \x7b\n    fragmentColor = vec4(vColor,1);\n\x7d"

/-- WebGL responses consumed by `XrApp::start`'s one-time setup.  `Option`
fields mirror the `Option` returns of the corresponding `web_sys` calls; the
Rust code unwraps each of them.  The `Option Bool` status fields mirror
`get_..._parameter(..).as_bool()`, to which the code applies
`unwrap_or(false)`. -/
structure StartEnv where
  program : Option Nat            -- `gl.create_program()`
  vs : Option Nat                 -- `gl.create_shader(VERTEX_SHADER)`
  fs : Option Nat                 -- `gl.create_shader(FRAGMENT_SHADER)`
  linkStatus : Option Bool        -- `get_program_parameter(.., LINK_STATUS).as_bool()`
  programInfoLog : Option String  -- `gl.get_program_info_log(..)`
  vsCompileStatus : Option Bool   -- `get_shader_parameter(vs, COMPILE_STATUS).as_bool()`
  vsInfoLog : Option String       -- `gl.get_shader_info_log(&vs)`
  fsCompileStatus : Option Bool   -- `get_shader_parameter(fs, COMPILE_STATUS).as_bool()`
  fsInfoLog : Option String       -- `gl.get_shader_info_log(&fs)`
  modelLocation : Option Nat      -- `gl.get_uniform_location(.., "model")`
  viewLocation : Option Nat       -- `gl.get_uniform_location(.., "view")`
  projectionLocation : Option Nat -- `gl.get_uniform_location(.., "projection")`
  buffer : Option Nat             -- `gl.create_buffer()`
  vertexAttribLocation : Int      -- `gl.get_attrib_location(.., "vertexPosition")`
deriving DecidableEq

/-- The conditional compile-error log of one shader stage: logged only when
that stage's compile status is not true; `get_shader_info_log(..).unwrap()`
panics when the log is absent.  Returns (lines logged, panicked?). -/
def stageLog (compileOk : Bool) (infoLog : Option String) (mk : String → LogMsg) :
    List LogMsg × Bool :=
  if compileOk then ([], false)
  else match infoLog with
    | none => ([], true)
    | some l => ([mk l], false)

/-- The diagnostic block of `XrApp::start` (src/lib.rs lines 175–200): when
`LINK_STATUS` is not true, log the program info log, then each stage's compile
log, each guarded by that stage's `COMPILE_STATUS`.  Returns (lines logged,
panicked?). -/
def linkFailureLogs (env : StartEnv) : List LogMsg × Bool :=
  if env.linkStatus.getD false then ([], false)
  else match env.programInfoLog with
    | none => ([], true)
    | some plog =>
      let vsl := stageLog (env.vsCompileStatus.getD false) env.vsInfoLog LogMsg.vsCompileError
      if vsl.2 then ([LogMsg.programLinkError plog], true)
      else
        let fsl := stageLog (env.fsCompileStatus.getD false) env.fsInfoLog LogMsg.fsCompileError
        (LogMsg.programLinkError plog :: (vsl.1 ++ fsl.1), fsl.2)

/-- A run of `XrApp::start`: its log lines, GL operations, whether the frame
closure was registered with `request_animation_frame`, and whether setup
completed or panicked. -/
structure StartRun where
  logs : List LogMsg
  ops : List GlOp
  registered : Bool
  result : StepResult
deriving DecidableEq

/-- `XrApp::start` (src/lib.rs lines 121–309).  With the session cell empty it
returns immediately: no log, no GL call, no registration.  Otherwise it builds
the program (create/source/compile/attach both shaders, link), runs the
link-failure diagnostic block, enables depth test and culling, installs the
program, resolves the three uniform locations (each `unwrap()`ed), uploads the
static geometry, configures the two vertex attributes, and registers the frame
closure.  `get_attrib_location`'s `i32` is cast `as u32` for the enable call. -/
def XrApp.start (session : Option Nat) (env : StartEnv) : StartRun :=
  match session with
  | none => ⟨[], [], false, .completed⟩
  | some _ =>
    match env.program with
    | none => ⟨[], [GlOp.createProgram], false, .panicked⟩
    | some prog =>
      match env.vs with
      | none => ⟨[], [GlOp.createProgram, GlOp.createShader VERTEX_SHADER], false, .panicked⟩
      | some vs =>
        let opsVs := [GlOp.createProgram, GlOp.createShader VERTEX_SHADER,
          GlOp.shaderSource vs vsSource, GlOp.compileShader vs, GlOp.attachShader prog vs]
        match env.fs with
        | none => ⟨[], opsVs ++ [GlOp.createShader FRAGMENT_SHADER], false, .panicked⟩
        | some fs =>
          let opsLinked := opsVs ++ [GlOp.createShader FRAGMENT_SHADER,
            GlOp.shaderSource fs fsSource, GlOp.compileShader fs, GlOp.attachShader prog fs,
            GlOp.linkProgram prog]
          let diag := linkFailureLogs env
          if diag.2 then ⟨diag.1, opsLinked, false, .panicked⟩
          else
            let opsUsed := opsLinked ++ [GlOp.enable DEPTH_TEST, GlOp.enable CULL_FACE,
              GlOp.useProgram prog]
            match env.modelLocation with
            | none => ⟨diag.1, opsUsed, false, .panicked⟩
            | some _ =>
              match env.viewLocation with
              | none => ⟨diag.1, opsUsed, false, .panicked⟩
              | some _ =>
                match env.projectionLocation with
                | none => ⟨diag.1, opsUsed, false, .panicked⟩
                | some _ =>
                  match env.buffer with
                  | none => ⟨diag.1, opsUsed ++ [GlOp.createBuffer], false, .panicked⟩
                  | some buf =>
                    ⟨diag.1, opsUsed ++ [GlOp.createBuffer,
                      GlOp.bindBuffer ARRAY_BUFFER buf,
                      GlOp.bufferData ARRAY_BUFFER STATIC_DRAW,
                      GlOp.enableVertexAttribArray
                        ((env.vertexAttribLocation % (4294967296 : Int)).toNat),
                      GlOp.enableVertexAttribArray 1,
                      GlOp.vertexAttribPointer 0 3 FLOAT false 24 0,
                      GlOp.vertexAttribPointer 1 3 FLOAT false 24 12],
                      true, .completed⟩

/-- Is an operation a `draw_arrays` call? -/
def isDrawOp : GlOp → Bool
  | .drawArrays _ _ _ => true
  | _ => false

/-- Is an operation the re-arm (`request_animation_frame`)? -/
def isRearmOp : GlOp → Bool
  | .rearm => true
  | _ => false

/-- Number of operations in a trace satisfying `p`. -/
def countOps (p : GlOp → Bool) (l : List GlOp) : Nat := (l.filter p).length

/-- The identity-like matrix used for concrete view data in closed
statements. -/
def idMat : List Int := [1, 0, 0, 0, 0, 1, 0, 0, 0, 0, 1, 0, 0, 0, 0, 1]

/-- A concrete left-eye view for closed statements. -/
def sampleView0 : XrView := ⟨idMat, idMat, some ⟨0, 0, 800, 600⟩⟩

/-- A concrete right-eye view for closed statements. -/
def sampleView1 : XrView := ⟨idMat, idMat, some ⟨800, 0, 800, 600⟩⟩

/-- A concrete frame environment with a valid pose. -/
def sampleFrameEnv : FrameEnv := ⟨some 11, some (sampleView0, sampleView1)⟩

/-- A concrete frame environment whose viewer-pose lookup yields no pose
(tracking lost). -/
def poseLostFrameEnv : FrameEnv := ⟨some 11, none⟩

/-- A WebGL environment in which every query succeeds and the program links. -/
def startEnvAllOk : StartEnv :=
  ⟨some 1, some 2, some 3, some true, some "", some true, some "",
    some true, some "", some 4, some 5, some 6, some 7, 0⟩

/-- A WebGL environment in which the program fails to link but both shader
stages report a true compile status. -/
def startEnvLinkFailStagesOk : StartEnv :=
  ⟨some 1, some 2, some 3, some false, some "L", some true, some "VL",
    some true, some "FL", some 4, some 5, some 6, some 7, 0⟩

/-- A WebGL environment in which the program fails to link and the vertex
stage also reports a false compile status. -/
def startEnvLinkAndVsFail : StartEnv :=
  ⟨some 1, some 2, some 3, some false, some "L", some false, some "VL",
    some true, some "FL", some 4, some 5, some 6, some 7, 0⟩

/-- A negotiation environment whose session request fails. -/
def initEnvSessionFail : InitEnv := ⟨.ok true, .error 7, .ok 3, .ok 5⟩

/-- A negotiation environment whose reference-space request fails. -/
def initEnvRefSpaceFail : InitEnv := ⟨.ok true, .ok 7, .ok 3, .error 9⟩

/-- A negotiation environment whose WebGL-layer creation fails. -/
def initEnvGlLayerFail : InitEnv := ⟨.ok true, .ok 7, .error 3, .ok 5⟩

/-- C1: For every run of the negotiation (`XrApp::init`) that completes
successfully, the SessionHandle and the ReferenceSpace are published to the
shared cells atomically with respect to the event loop — every state
observable at a suspension point has both cells empty, the final state of a
successful run has both cells filled, every observable state has the two
cells filled-or-empty together — and for every run that does not resolve to
`true` (in particular every run failing at or after the session-request
step), neither shared cell is written. -/
theorem c1_atomic_publication (env : InitEnv) :
    (∀ s ∈ (XrApp.init env ⟨none, none⟩).observable,
      s = (⟨none, none⟩ : SharedState)) ∧
    (∀ s ∈ (XrApp.init env ⟨none, none⟩).observable,
      s.session.isSome = s.refSpace.isSome) ∧
    (XrApp.init env ⟨none, none⟩).final.session.isSome
      = (XrApp.init env ⟨none, none⟩).final.refSpace.isSome ∧
    ((XrApp.init env ⟨none, none⟩).outcome = .resolved true →
      (XrApp.init env ⟨none, none⟩).final.session.isSome = true ∧
      (XrApp.init env ⟨none, none⟩).final.refSpace.isSome = true) ∧
    ((XrApp.init env ⟨none, none⟩).outcome ≠ .resolved true →
      (XrApp.init env ⟨none, none⟩).final = ⟨none, none⟩) := by
  obtain ⟨sup, sreq, gl, rs⟩ := env
  rcases sup with e | b
  · simp [XrApp.init]
  rcases b with _ | _
  · simp [XrApp.init]
  rcases sreq with e | sess
  · simp [XrApp.init]
  rcases gl with e | lay
  · simp [XrApp.init]
  rcases rs with e | rsp
  · simp [XrApp.init]
  simp [XrApp.init]

/-- Closed witness for `c1_atomic_publication` at a concrete successful
environment. -/
theorem c1_atomic_publication_witness :
    (∀ s ∈ (XrApp.init ⟨.ok true, .ok 7, .ok 3, .ok 5⟩ ⟨none, none⟩).observable,
      s = (⟨none, none⟩ : SharedState)) ∧
    (∀ s ∈ (XrApp.init ⟨.ok true, .ok 7, .ok 3, .ok 5⟩ ⟨none, none⟩).observable,
      s.session.isSome = s.refSpace.isSome) ∧
    (XrApp.init ⟨.ok true, .ok 7, .ok 3, .ok 5⟩ ⟨none, none⟩).final.session.isSome
      = (XrApp.init ⟨.ok true, .ok 7, .ok 3, .ok 5⟩ ⟨none, none⟩).final.refSpace.isSome ∧
    ((XrApp.init ⟨.ok true, .ok 7, .ok 3, .ok 5⟩ ⟨none, none⟩).outcome = .resolved true →
      (XrApp.init ⟨.ok true, .ok 7, .ok 3, .ok 5⟩ ⟨none, none⟩).final.session.isSome = true ∧
      (XrApp.init ⟨.ok true, .ok 7, .ok 3, .ok 5⟩ ⟨none, none⟩).final.refSpace.isSome = true) ∧
    ((XrApp.init ⟨.ok true, .ok 7, .ok 3, .ok 5⟩ ⟨none, none⟩).outcome ≠ .resolved true →
      (XrApp.init ⟨.ok true, .ok 7, .ok 3, .ok 5⟩ ⟨none, none⟩).final = ⟨none, none⟩) :=
  c1_atomic_publication ⟨.ok true, .ok 7, .ok 3, .ok 5⟩

/-- C2: For every negotiation run in which the capability query returns
`false`, the negotiation issues no session request, no render-target bind
(WebGL-layer creation or render-state update), and no reference-space
request, writes nothing to shared state, and its result is exactly the
`Unsupported` outcome (`Ok(false)`), distinct from `Ready` (`Ok(true)`) and
from every failure outcome. -/
theorem c2_unsupported_no_requests (env : InitEnv) (s0 : SharedState)
    (h : env.supportsSession = .ok false) :
    (XrApp.init env s0).calls = [HostCall.isSessionSupported] ∧
    HostCall.requestSession ∉ (XrApp.init env s0).calls ∧
    HostCall.createWebGlLayer ∉ (XrApp.init env s0).calls ∧
    HostCall.updateRenderState ∉ (XrApp.init env s0).calls ∧
    HostCall.requestReferenceSpace ∉ (XrApp.init env s0).calls ∧
    (XrApp.init env s0).final = s0 ∧
    (XrApp.init env s0).observable = [s0] ∧
    (XrApp.init env s0).outcome = .resolved false ∧
    (XrApp.init env s0).outcome ≠ .resolved true ∧
    (∀ e : Nat, (XrApp.init env s0).outcome ≠ .rejected e) ∧
    (XrApp.init env s0).outcome ≠ .panicked := by
  simp [XrApp.init, h]

/-- Closed witness for `c2_unsupported_no_requests` at a concrete
environment whose capability query answers `false`. -/
theorem c2_unsupported_no_requests_witness :
    (XrApp.init ⟨.ok false, .ok 7, .ok 3, .ok 5⟩ ⟨none, none⟩).calls
      = [HostCall.isSessionSupported] ∧
    HostCall.requestSession ∉ (XrApp.init ⟨.ok false, .ok 7, .ok 3, .ok 5⟩ ⟨none, none⟩).calls ∧
    HostCall.createWebGlLayer ∉ (XrApp.init ⟨.ok false, .ok 7, .ok 3, .ok 5⟩ ⟨none, none⟩).calls ∧
    HostCall.updateRenderState ∉ (XrApp.init ⟨.ok false, .ok 7, .ok 3, .ok 5⟩ ⟨none, none⟩).calls ∧
    HostCall.requestReferenceSpace
      ∉ (XrApp.init ⟨.ok false, .ok 7, .ok 3, .ok 5⟩ ⟨none, none⟩).calls ∧
    (XrApp.init ⟨.ok false, .ok 7, .ok 3, .ok 5⟩ ⟨none, none⟩).final
      = (⟨none, none⟩ : SharedState) ∧
    (XrApp.init ⟨.ok false, .ok 7, .ok 3, .ok 5⟩ ⟨none, none⟩).observable
      = [(⟨none, none⟩ : SharedState)] ∧
    (XrApp.init ⟨.ok false, .ok 7, .ok 3, .ok 5⟩ ⟨none, none⟩).outcome = .resolved false ∧
    (XrApp.init ⟨.ok false, .ok 7, .ok 3, .ok 5⟩ ⟨none, none⟩).outcome ≠ .resolved true ∧
    (∀ e : Nat, (XrApp.init ⟨.ok false, .ok 7, .ok 3, .ok 5⟩ ⟨none, none⟩).outcome
      ≠ .rejected e) ∧
    (XrApp.init ⟨.ok false, .ok 7, .ok 3, .ok 5⟩ ⟨none, none⟩).outcome ≠ .panicked :=
  c2_unsupported_no_requests ⟨.ok false, .ok 7, .ok 3, .ok 5⟩ ⟨none, none⟩ rfl


/-- C3 fails on the code: the frame closure, invoked with the shared cells
empty, performs the framebuffer bind (before ever reading the cells) and then
panics at `ref_pose.as_ref().unwrap()` — it neither skips the bind nor
survives. -/
theorem c3_counterexample_empty_state_bind_and_panic :
    GlOp.bindFramebuffer FRAMEBUFFER 11 ∈ (frameStep none sampleFrameEnv).ops ∧
    (frameStep none sampleFrameEnv).result = .panicked := by decide

/-- C3 amended: a frame step invoked with the shared reference-space cell
empty issues no draw call and no re-arm — but it does perform the framebuffer
bind (when a base layer exists) and panics rather than returning cleanly; the
program never actually invokes the closure in that state, because
`XrApp::start` called before negotiation completes registers no callback,
performs no GPU setup and emits no log. -/
theorem c3_amended_no_step_before_negotiation (env : StartEnv) (fenv : FrameEnv) :
    (XrApp.start none env).registered = false ∧
    (XrApp.start none env).ops = [] ∧
    (XrApp.start none env).logs = [] ∧
    (frameStep none fenv).result = .panicked ∧
    countOps isDrawOp (frameStep none fenv).ops = 0 ∧
    GlOp.rearm ∉ (frameStep none fenv).ops := by
  obtain ⟨bl, vp⟩ := fenv
  rcases bl with _ | fb <;>
    simp [XrApp.start, frameStep, countOps, isDrawOp, isRearmOp]

/-- Closed witness for `c3_amended_no_step_before_negotiation`. -/
theorem c3_amended_no_step_before_negotiation_witness :
    (XrApp.start none ⟨some 1, some 2, some 3, some true, some "", some true, some "",
      some true, some "", some 4, some 5, some 6, some 7, 0⟩).registered = false ∧
    (XrApp.start none ⟨some 1, some 2, some 3, some true, some "", some true, some "",
      some true, some "", some 4, some 5, some 6, some 7, 0⟩).ops = [] ∧
    (XrApp.start none ⟨some 1, some 2, some 3, some true, some "", some true, some "",
      some true, some "", some 4, some 5, some 6, some 7, 0⟩).logs = [] ∧
    (frameStep none sampleFrameEnv).result = .panicked ∧
    countOps isDrawOp (frameStep none sampleFrameEnv).ops = 0 ∧
    GlOp.rearm ∉ (frameStep none sampleFrameEnv).ops :=
  c3_amended_no_step_before_negotiation
    ⟨some 1, some 2, some 3, some true, some "", some true, some "",
      some true, some "", some 4, some 5, some 6, some 7, 0⟩ sampleFrameEnv

/-- C4 fails on the code: on a tick whose viewer-pose lookup yields no pose,
the closure panics at `get_viewer_pose(..).unwrap()` — no re-arm is issued
and the loop does not continue. -/
theorem c4_counterexample_pose_loss_no_rearm :
    (frameStep (some 1) poseLostFrameEnv).result = .panicked ∧
    countOps isRearmOp (frameStep (some 1) poseLostFrameEnv).ops = 0 ∧
    countOps isDrawOp (frameStep (some 1) poseLostFrameEnv).ops = 0 := by decide

/-- C4 amended: a frame step whose pose computation yields no pose performs
the framebuffer bind and clear bookkeeping and issues zero draw calls — but
it then panics at the pose `unwrap()` without re-arming, so the failure is
fatal: no later tick of the loop runs. -/
theorem c4_amended_pose_loss_fatal (rsId fb : Nat) (fenv : FrameEnv)
    (hb : fenv.baseLayer = some fb) (hp : fenv.viewerPose = none)
    (rest : List FrameEnv) :
    frameStep (some rsId) fenv =
      ⟨[GlOp.bindFramebuffer FRAMEBUFFER fb, GlOp.clearColor 0 0 0 1,
        GlOp.clear COLOR_BUFFER_BIT], .panicked⟩ ∧
    countOps isDrawOp (frameStep (some rsId) fenv).ops = 0 ∧
    GlOp.rearm ∉ (frameStep (some rsId) fenv).ops ∧
    runLoop (some rsId) (fenv :: rest) = (frameStep (some rsId) fenv).ops := by
  simp [frameStep, runLoop, hb, hp, countOps, isDrawOp]

/-- Closed witness for `c4_amended_pose_loss_fatal`. -/
theorem c4_amended_pose_loss_fatal_witness :
    frameStep (some 1) poseLostFrameEnv =
      ⟨[GlOp.bindFramebuffer FRAMEBUFFER 11, GlOp.clearColor 0 0 0 1,
        GlOp.clear COLOR_BUFFER_BIT], .panicked⟩ ∧
    countOps isDrawOp (frameStep (some 1) poseLostFrameEnv).ops = 0 ∧
    GlOp.rearm ∉ (frameStep (some 1) poseLostFrameEnv).ops ∧
    runLoop (some 1) (poseLostFrameEnv :: []) = (frameStep (some 1) poseLostFrameEnv).ops :=
  c4_amended_pose_loss_fatal 1 11 poseLostFrameEnv rfl rfl []

theorem countOps_append (p : GlOp → Bool) (a b : List GlOp) :
    countOps p (a ++ b) = countOps p a + countOps p b := by
  simp [countOps, List.filter_append]

theorem frameStep_completed_counts (rs : Option Nat) (e : FrameEnv)
    (h : (frameStep rs e).result = .completed) :
    countOps isDrawOp (frameStep rs e).ops = 2 ∧
    countOps isRearmOp (frameStep rs e).ops = 1 := by
  obtain ⟨bl, vp⟩ := e
  rcases bl with _ | fb
  · simp [frameStep] at h
  rcases rs with _ | rsId
  · simp [frameStep] at h
  rcases vp with _ | ⟨v0, v1⟩
  · simp [frameStep] at h
  rcases h0 : v0.viewport with _ | vp0
  · simp [frameStep, h0] at h
  rcases h1 : v1.viewport with _ | vp1
  · simp [frameStep, h0, h1] at h
  · simp [frameStep, h0, h1, countOps, isDrawOp, isRearmOp]

theorem runLoop_completed_counts (rs : Option Nat) (envs : List FrameEnv)
    (h : ∀ e ∈ envs, (frameStep rs e).result = .completed) :
    countOps isDrawOp (runLoop rs envs) = 2 * envs.length ∧
    countOps isRearmOp (runLoop rs envs) = envs.length := by
  induction envs with
  | nil => simp [runLoop, countOps]
  | cons e es ih =>
    have he := h e (by simp)
    have hes := ih (fun x hx => h x (by simp [hx]))
    have hc := frameStep_completed_counts rs e he
    have hstep : runLoop rs (e :: es) = (frameStep rs e).ops ++ runLoop rs es := by
      simp [runLoop, he]
    rw [hstep, countOps_append, countOps_append, hc.1, hc.2, hes.1, hes.2]
    simp [List.length_cons]
    omega

/-- C5: Every frame step that runs to completion issues exactly two draw
calls (each a 3-vertex `TRIANGLES` draw), each preceded by the viewport set
taken from that eye's viewport (eye 0's viewport and matrices before eye 0's
draw, eye 1's before eye 1's), the left-eye draw (view index 0) preceding the
right-eye draw (view index 1), with exactly one re-arm per tick; a run of `n`
completed ticks yields `n` re-arms and `2n` draws. -/
theorem c5_stereo_draw_discipline (rsId fb : Nat) (v0 v1 : XrView) (vp0 vp1 : Viewport)
    (h0 : v0.viewport = some vp0) (h1 : v1.viewport = some vp1)
    (envs : List FrameEnv)
    (hall : ∀ e ∈ envs, (frameStep (some rsId) e).result = .completed) :
    frameStep (some rsId) ⟨some fb, some (v0, v1)⟩ =
      ⟨[GlOp.bindFramebuffer FRAMEBUFFER fb, GlOp.clearColor 0 0 0 1,
        GlOp.clear COLOR_BUFFER_BIT,
        GlOp.uniformMatrix4fv .model false modelMatrix,
        GlOp.viewport vp0.x vp0.y vp0.width vp0.height,
        GlOp.uniformMatrix4fv .projection false v0.projectionMatrix,
        GlOp.uniformMatrix4fv .view false v0.inverseTransformMatrix,
        GlOp.drawArrays TRIANGLES 0 3,
        GlOp.viewport vp1.x vp1.y vp1.width vp1.height,
        GlOp.uniformMatrix4fv .projection false v1.projectionMatrix,
        GlOp.uniformMatrix4fv .view false v1.inverseTransformMatrix,
        GlOp.drawArrays TRIANGLES 0 3,
        GlOp.rearm], .completed⟩ ∧
    countOps isDrawOp (frameStep (some rsId) ⟨some fb, some (v0, v1)⟩).ops = 2 ∧
    countOps isRearmOp (frameStep (some rsId) ⟨some fb, some (v0, v1)⟩).ops = 1 ∧
    countOps isDrawOp (runLoop (some rsId) envs) = 2 * envs.length ∧
    countOps isRearmOp (runLoop (some rsId) envs) = envs.length := by
  have htrace : frameStep (some rsId) ⟨some fb, some (v0, v1)⟩ =
      ⟨[GlOp.bindFramebuffer FRAMEBUFFER fb, GlOp.clearColor 0 0 0 1,
        GlOp.clear COLOR_BUFFER_BIT,
        GlOp.uniformMatrix4fv .model false modelMatrix,
        GlOp.viewport vp0.x vp0.y vp0.width vp0.height,
        GlOp.uniformMatrix4fv .projection false v0.projectionMatrix,
        GlOp.uniformMatrix4fv .view false v0.inverseTransformMatrix,
        GlOp.drawArrays TRIANGLES 0 3,
        GlOp.viewport vp1.x vp1.y vp1.width vp1.height,
        GlOp.uniformMatrix4fv .projection false v1.projectionMatrix,
        GlOp.uniformMatrix4fv .view false v1.inverseTransformMatrix,
        GlOp.drawArrays TRIANGLES 0 3,
        GlOp.rearm], .completed⟩ := by
    simp [frameStep, h0, h1]
  have hloop := runLoop_completed_counts (some rsId) envs hall
  refine ⟨htrace, ?_, ?_, hloop.1, hloop.2⟩ <;>
    rw [htrace] <;> simp [countOps, isDrawOp, isRearmOp]

/-- Closed witness for `c5_stereo_draw_discipline`: three completed ticks
yield three re-arms and six draws. -/
theorem c5_stereo_draw_discipline_witness :
    frameStep (some 1) ⟨some 11, some (sampleView0, sampleView1)⟩ =
      ⟨[GlOp.bindFramebuffer FRAMEBUFFER 11, GlOp.clearColor 0 0 0 1,
        GlOp.clear COLOR_BUFFER_BIT,
        GlOp.uniformMatrix4fv .model false modelMatrix,
        GlOp.viewport 0 0 800 600,
        GlOp.uniformMatrix4fv .projection false sampleView0.projectionMatrix,
        GlOp.uniformMatrix4fv .view false sampleView0.inverseTransformMatrix,
        GlOp.drawArrays TRIANGLES 0 3,
        GlOp.viewport 800 0 800 600,
        GlOp.uniformMatrix4fv .projection false sampleView1.projectionMatrix,
        GlOp.uniformMatrix4fv .view false sampleView1.inverseTransformMatrix,
        GlOp.drawArrays TRIANGLES 0 3,
        GlOp.rearm], .completed⟩ ∧
    countOps isDrawOp (frameStep (some 1) ⟨some 11, some (sampleView0, sampleView1)⟩).ops = 2 ∧
    countOps isRearmOp (frameStep (some 1) ⟨some 11, some (sampleView0, sampleView1)⟩).ops = 1 ∧
    countOps isDrawOp (runLoop (some 1) [sampleFrameEnv, sampleFrameEnv, sampleFrameEnv])
      = 2 * [sampleFrameEnv, sampleFrameEnv, sampleFrameEnv].length ∧
    countOps isRearmOp (runLoop (some 1) [sampleFrameEnv, sampleFrameEnv, sampleFrameEnv])
      = [sampleFrameEnv, sampleFrameEnv, sampleFrameEnv].length :=
  c5_stereo_draw_discipline 1 11 sampleView0 sampleView1 ⟨0, 0, 800, 600⟩ ⟨800, 0, 800, 600⟩
    rfl rfl [sampleFrameEnv, sampleFrameEnv, sampleFrameEnv] (by decide)

theorem frameStep_model_upload_constant (rs : Option Nat) (e : FrameEnv)
    (t : Bool) (vals : List Int)
    (hm : GlOp.uniformMatrix4fv UniformName.model t vals ∈ (frameStep rs e).ops) :
    t = false ∧ vals = modelMatrix := by
  obtain ⟨bl, vp⟩ := e
  rcases bl with _ | fb
  · simp [frameStep] at hm
  rcases rs with _ | rsId
  · simp [frameStep] at hm
  rcases vp with _ | ⟨v0, v1⟩
  · simp [frameStep] at hm
  rcases h0 : v0.viewport with _ | vp0
  · simp [frameStep, h0] at hm
    exact hm
  rcases h1 : v1.viewport with _ | vp1
  · simp [frameStep, h0, h1] at hm
    exact hm
  · simp [frameStep, h0, h1] at hm
    exact hm

/-- C6: For every tick of the loop (and hence for both eyes within every
tick), every model-matrix uniform upload issued carries the identical
constant scale-by-2 matrix `[2,0,0,0, 0,2,0,0, 0,0,2,0, 0,0,0,1]` with
`transpose = false`; it is never changed across frames or between eyes. -/
theorem c6_model_matrix_constant (rs : Option Nat) (envs : List FrameEnv)
    (t : Bool) (vals : List Int)
    (hm : GlOp.uniformMatrix4fv UniformName.model t vals ∈ runLoop rs envs) :
    t = false ∧ vals = modelMatrix ∧
    modelMatrix = [2, 0, 0, 0, 0, 2, 0, 0, 0, 0, 2, 0, 0, 0, 0, 1] := by
  induction envs with
  | nil => simp [runLoop] at hm
  | cons e es ih =>
    rcases hres : (frameStep rs e).result with _ | _
    · rw [show runLoop rs (e :: es) = (frameStep rs e).ops ++ runLoop rs es by
        simp [runLoop, hres]] at hm
      rcases List.mem_append.mp hm with hstep | hrest
      · have := frameStep_model_upload_constant rs e t vals hstep
        exact ⟨this.1, this.2, rfl⟩
      · exact ih hrest
    · rw [show runLoop rs (e :: es) = (frameStep rs e).ops by
        simp [runLoop, hres]] at hm
      have := frameStep_model_upload_constant rs e t vals hm
      exact ⟨this.1, this.2, rfl⟩

/-- Closed witness for `c6_model_matrix_constant`. -/
theorem c6_model_matrix_constant_witness :
    false = false ∧ modelMatrix = modelMatrix ∧
    modelMatrix = [2, 0, 0, 0, 0, 2, 0, 0, 0, 0, 2, 0, 0, 0, 0, 1] :=
  c6_model_matrix_constant (some 1) [sampleFrameEnv] false modelMatrix (by decide)

/-- C7 fails on the code: `XrApp::start` called before negotiation has
completed (session cell empty) returns immediately without emitting any log
line — the `else` branch of the session check is a bare `return ()` with no
`log!` call. -/
theorem c7_counterexample_unlogged_noop :
    (XrApp.start none startEnvAllOk).logs = [] ∧
    (XrApp.start none startEnvAllOk).registered = false ∧
    (XrApp.start none startEnvAllOk).ops = [] := by decide

/-- C7 amended: `XrApp::start` called before negotiation has completed is a
silent no-op — it registers no callback, performs no GPU setup, and emits no
log line; when the session cell is filled, a completed setup run ends with
the frame closure registered (the frame loop begins). -/
theorem c7_amended_start_silent_noop (env : StartEnv) (s : Nat) :
    XrApp.start none env = ⟨[], [], false, .completed⟩ ∧
    ((XrApp.start (some s) env).result = .completed →
      (XrApp.start (some s) env).registered = true) := by
  obtain ⟨prog, vs, fs, ls, plog, vst, vlog, fst, flog, ml, vl, pl, buf, val⟩ := env
  refine ⟨rfl, ?_⟩
  intro hc
  rcases prog with _ | p
  · simp [XrApp.start] at hc
  rcases vs with _ | v
  · simp [XrApp.start] at hc
  rcases fs with _ | f
  · simp [XrApp.start] at hc
  by_cases hd : (linkFailureLogs
      ⟨some p, some v, some f, ls, plog, vst, vlog, fst, flog, ml, vl, pl, buf, val⟩).2
  · simp [XrApp.start, hd] at hc
  rcases ml with _ | m
  · simp [XrApp.start, hd] at hc
  rcases vl with _ | vv
  · simp [XrApp.start, hd] at hc
  rcases pl with _ | pp
  · simp [XrApp.start, hd] at hc
  rcases buf with _ | b
  · simp [XrApp.start, hd] at hc
  simp [XrApp.start, hd]

/-- Closed witness for `c7_amended_start_silent_noop`. -/
theorem c7_amended_start_silent_noop_witness :
    XrApp.start none startEnvAllOk = ⟨[], [], false, .completed⟩ ∧
    ((XrApp.start (some 1) startEnvAllOk).result = .completed →
      (XrApp.start (some 1) startEnvAllOk).registered = true) :=
  c7_amended_start_silent_noop startEnvAllOk 1

/-- C8 fails on the code: a failed session request and a failed
reference-space request both abort the negotiation with the same panic
(`unwrap()` on an `Err`), not with distinct `SessionRequestFailed` /
`ReferenceSpaceUnavailable` values — the failing step is not diagnosable
from the result. -/
theorem c8_counterexample_indistinct_failures :
    (XrApp.init initEnvSessionFail ⟨none, none⟩).outcome = .panicked ∧
    (XrApp.init initEnvRefSpaceFail ⟨none, none⟩).outcome = .panicked ∧
    (XrApp.init initEnvSessionFail ⟨none, none⟩).outcome
      = (XrApp.init initEnvRefSpaceFail ⟨none, none⟩).outcome := by decide

/-- C8 amended: a session-request failure or a reference-space failure aborts
the negotiation with a panic (no per-step failure value reaches the caller);
only a render-target-bind failure is propagated, as a rejection carrying the
underlying error value; in every such failure nothing is written to shared
state, and negotiation is not retried — no host call is ever issued twice in
one run. -/
theorem c8_amended_failure_propagation (env : InitEnv) (s0 : SharedState) :
    (∀ e, env.supportsSession = .ok true → env.sessionRequest = .error e →
      (XrApp.init env s0).outcome = .panicked ∧ (XrApp.init env s0).final = s0) ∧
    (∀ sess e, env.supportsSession = .ok true → env.sessionRequest = .ok sess →
      env.glLayer = .error e →
      (XrApp.init env s0).outcome = .rejected e ∧ (XrApp.init env s0).final = s0) ∧
    (∀ sess lay e, env.supportsSession = .ok true → env.sessionRequest = .ok sess →
      env.glLayer = .ok lay → env.refSpaceRequest = .error e →
      (XrApp.init env s0).outcome = .panicked ∧ (XrApp.init env s0).final = s0) ∧
    (XrApp.init env s0).calls.Nodup := by
  refine ⟨?_, ?_, ?_, ?_⟩
  · intro e h1 h2
    simp [XrApp.init, h1, h2]
  · intro sess e h1 h2 h3
    simp [XrApp.init, h1, h2, h3]
  · intro sess lay e h1 h2 h3 h4
    simp [XrApp.init, h1, h2, h3, h4]
  · rcases h1 : env.supportsSession with e | b
    · simp [XrApp.init, h1]
    rcases b with _ | _
    · simp [XrApp.init, h1]
    rcases h2 : env.sessionRequest with e | sess
    · simp [XrApp.init, h1, h2]
    rcases h3 : env.glLayer with e | lay
    · simp [XrApp.init, h1, h2, h3]
    rcases h4 : env.refSpaceRequest with e | rsp <;> simp [XrApp.init, h1, h2, h3, h4]

/-- Closed witness for `c8_amended_failure_propagation` at the
layer-failure environment. -/
theorem c8_amended_failure_propagation_witness :
    (∀ e, initEnvGlLayerFail.supportsSession = .ok true →
      initEnvGlLayerFail.sessionRequest = .error e →
      (XrApp.init initEnvGlLayerFail ⟨none, none⟩).outcome = .panicked ∧
      (XrApp.init initEnvGlLayerFail ⟨none, none⟩).final = ⟨none, none⟩) ∧
    (∀ sess e, initEnvGlLayerFail.supportsSession = .ok true →
      initEnvGlLayerFail.sessionRequest = .ok sess →
      initEnvGlLayerFail.glLayer = .error e →
      (XrApp.init initEnvGlLayerFail ⟨none, none⟩).outcome = .rejected e ∧
      (XrApp.init initEnvGlLayerFail ⟨none, none⟩).final = ⟨none, none⟩) ∧
    (∀ sess lay e, initEnvGlLayerFail.supportsSession = .ok true →
      initEnvGlLayerFail.sessionRequest = .ok sess →
      initEnvGlLayerFail.glLayer = .ok lay →
      initEnvGlLayerFail.refSpaceRequest = .error e →
      (XrApp.init initEnvGlLayerFail ⟨none, none⟩).outcome = .panicked ∧
      (XrApp.init initEnvGlLayerFail ⟨none, none⟩).final = ⟨none, none⟩) ∧
    (XrApp.init initEnvGlLayerFail ⟨none, none⟩).calls.Nodup :=
  c8_amended_failure_propagation initEnvGlLayerFail ⟨none, none⟩

/-- C9 fails on the code: when the program fails to link but both shader
stages report a true compile status, setup logs only the program link log —
the per-stage compile logs are each guarded by that stage's own
`COMPILE_STATUS`, not emitted for every stage.  (Setup does continue and the
closure is still registered, as the claim says.) -/
theorem c9_counterexample_no_stage_logs :
    (XrApp.start (some 1) startEnvLinkFailStagesOk).logs = [LogMsg.programLinkError "L"] ∧
    (XrApp.start (some 1) startEnvLinkFailStagesOk).registered = true := by decide

/-- C9 amended: if the shader program fails to link during one-time setup,
setup reports the program link log first, and then the compile log of exactly
those shader stages whose compile status is false; setup then continues best
effort — the program is still installed (`use_program`) and the frame closure
is still registered — provided the info-log and location queries succeed. -/
theorem c9_amended_link_failure_diagnostics (s p v f m vv pp b : Nat) (env : StartEnv)
    (plog : String)
    (hp : env.program = some p) (hv : env.vs = some v) (hf : env.fs = some f)
    (hl : env.linkStatus.getD false = false)
    (hpl : env.programInfoLog = some plog)
    (hm : env.modelLocation = some m) (hvl : env.viewLocation = some vv)
    (hpj : env.projectionLocation = some pp) (hb : env.buffer = some b)
    (hvi : env.vsCompileStatus.getD false = false → env.vsInfoLog.isSome = true)
    (hfi : env.fsCompileStatus.getD false = false → env.fsInfoLog.isSome = true) :
    (XrApp.start (some s) env).logs.head? = some (LogMsg.programLinkError plog) ∧
    ((env.vsCompileStatus.getD false = false) ↔
      ∃ sl, LogMsg.vsCompileError sl ∈ (XrApp.start (some s) env).logs) ∧
    ((env.fsCompileStatus.getD false = false) ↔
      ∃ sl, LogMsg.fsCompileError sl ∈ (XrApp.start (some s) env).logs) ∧
    GlOp.useProgram p ∈ (XrApp.start (some s) env).ops ∧
    (XrApp.start (some s) env).registered = true ∧
    (XrApp.start (some s) env).result = .completed := by
  by_cases hvst : env.vsCompileStatus.getD false = true
  · by_cases hfst : env.fsCompileStatus.getD false = true
    · have hdiag : linkFailureLogs env = ([LogMsg.programLinkError plog], false) := by
        simp [linkFailureLogs, stageLog, hl, hpl, hvst, hfst]
      simp [XrApp.start, hp, hv, hf, hdiag, hm, hvl, hpj, hb, hvst, hfst]
    · rw [Bool.not_eq_true] at hfst
      obtain ⟨flog, hflog⟩ := Option.isSome_iff_exists.mp (hfi hfst)
      have hdiag : linkFailureLogs env
          = ([LogMsg.programLinkError plog, LogMsg.fsCompileError flog], false) := by
        simp [linkFailureLogs, stageLog, hl, hpl, hvst, hfst, hflog]
      simp [XrApp.start, hp, hv, hf, hdiag, hm, hvl, hpj, hb, hvst, hfst]
  · rw [Bool.not_eq_true] at hvst
    obtain ⟨vlog, hvlog⟩ := Option.isSome_iff_exists.mp (hvi hvst)
    by_cases hfst : env.fsCompileStatus.getD false = true
    · have hdiag : linkFailureLogs env
          = ([LogMsg.programLinkError plog, LogMsg.vsCompileError vlog], false) := by
        simp [linkFailureLogs, stageLog, hl, hpl, hvst, hvlog, hfst]
      simp [XrApp.start, hp, hv, hf, hdiag, hm, hvl, hpj, hb, hvst, hfst]
    · rw [Bool.not_eq_true] at hfst
      obtain ⟨flog, hflog⟩ := Option.isSome_iff_exists.mp (hfi hfst)
      have hdiag : linkFailureLogs env
          = ([LogMsg.programLinkError plog, LogMsg.vsCompileError vlog,
              LogMsg.fsCompileError flog], false) := by
        simp [linkFailureLogs, stageLog, hl, hpl, hvst, hvlog, hfst, hflog]
      simp [XrApp.start, hp, hv, hf, hdiag, hm, hvl, hpj, hb, hvst, hfst]

/-- Closed witness for `c9_amended_link_failure_diagnostics`: link failed,
vertex stage failed to compile, fragment stage compiled. -/
theorem c9_amended_link_failure_diagnostics_witness :
    (XrApp.start (some 1) startEnvLinkAndVsFail).logs.head?
      = some (LogMsg.programLinkError "L") ∧
    ((startEnvLinkAndVsFail.vsCompileStatus.getD false = false) ↔
      ∃ sl, LogMsg.vsCompileError sl ∈ (XrApp.start (some 1) startEnvLinkAndVsFail).logs) ∧
    ((startEnvLinkAndVsFail.fsCompileStatus.getD false = false) ↔
      ∃ sl, LogMsg.fsCompileError sl ∈ (XrApp.start (some 1) startEnvLinkAndVsFail).logs) ∧
    GlOp.useProgram 1 ∈ (XrApp.start (some 1) startEnvLinkAndVsFail).ops ∧
    (XrApp.start (some 1) startEnvLinkAndVsFail).registered = true ∧
    (XrApp.start (some 1) startEnvLinkAndVsFail).result = .completed :=
  c9_amended_link_failure_diagnostics 1 1 2 3 4 5 6 7 startEnvLinkAndVsFail "L"
    rfl rfl rfl rfl rfl rfl rfl rfl rfl (by decide) (by decide)

/-- C10: In every frame step, the re-arm is the last operation of the step: a
completed step's trace is `front ++ [re-arm]` where `front` holds no re-arm,
both draws, the clear and the framebuffer bind (so the re-arm comes only
after all of them); and a step that fails earlier (panics) issues no re-arm
at all, so the loop stops — the implementation's policy is re-arm-last,
fail-stop. -/
theorem c10_rearm_last_fail_stop (rs : Option Nat) (e : FrameEnv) :
    ((frameStep rs e).result = .completed →
      ∃ front, (frameStep rs e).ops = front ++ [GlOp.rearm] ∧
        GlOp.rearm ∉ front ∧
        countOps isDrawOp front = 2 ∧
        GlOp.clear COLOR_BUFFER_BIT ∈ front ∧
        ∃ fbv, GlOp.bindFramebuffer FRAMEBUFFER fbv ∈ front) ∧
    ((frameStep rs e).result = .panicked →
      GlOp.rearm ∉ (frameStep rs e).ops ∧
      ∀ rest, runLoop rs (e :: rest) = (frameStep rs e).ops) := by
  obtain ⟨bl, vp⟩ := e
  rcases bl with _ | fb
  · exact ⟨fun hc => by simp [frameStep] at hc,
      fun _ => ⟨by simp [frameStep], fun rest => by simp [runLoop, frameStep]⟩⟩
  rcases rs with _ | rsId
  · exact ⟨fun hc => by simp [frameStep] at hc,
      fun _ => ⟨by simp [frameStep], fun rest => by simp [runLoop, frameStep]⟩⟩
  rcases vp with _ | ⟨v0, v1⟩
  · exact ⟨fun hc => by simp [frameStep] at hc,
      fun _ => ⟨by simp [frameStep], fun rest => by simp [runLoop, frameStep]⟩⟩
  rcases h0 : v0.viewport with _ | vp0
  · exact ⟨fun hc => by simp [frameStep, h0] at hc,
      fun _ => ⟨by simp [frameStep, h0], fun rest => by simp [runLoop, frameStep, h0]⟩⟩
  rcases h1 : v1.viewport with _ | vp1
  · exact ⟨fun hc => by simp [frameStep, h0, h1] at hc,
      fun _ => ⟨by simp [frameStep, h0, h1], fun rest => by simp [runLoop, frameStep, h0, h1]⟩⟩
  · refine ⟨fun _ => ⟨[GlOp.bindFramebuffer FRAMEBUFFER fb, GlOp.clearColor 0 0 0 1,
        GlOp.clear COLOR_BUFFER_BIT,
        GlOp.uniformMatrix4fv .model false modelMatrix,
        GlOp.viewport vp0.x vp0.y vp0.width vp0.height,
        GlOp.uniformMatrix4fv .projection false v0.projectionMatrix,
        GlOp.uniformMatrix4fv .view false v0.inverseTransformMatrix,
        GlOp.drawArrays TRIANGLES 0 3,
        GlOp.viewport vp1.x vp1.y vp1.width vp1.height,
        GlOp.uniformMatrix4fv .projection false v1.projectionMatrix,
        GlOp.uniformMatrix4fv .view false v1.inverseTransformMatrix,
        GlOp.drawArrays TRIANGLES 0 3],
        by simp [frameStep, h0, h1], by simp, by simp [countOps, isDrawOp], by simp,
        ⟨fb, by simp⟩⟩,
      fun hp => by simp [frameStep, h0, h1] at hp⟩

/-- Closed witness for `c10_rearm_last_fail_stop`. -/
theorem c10_rearm_last_fail_stop_witness :
    ((frameStep (some 1) sampleFrameEnv).result = .completed →
      ∃ front, (frameStep (some 1) sampleFrameEnv).ops = front ++ [GlOp.rearm] ∧
        GlOp.rearm ∉ front ∧
        countOps isDrawOp front = 2 ∧
        GlOp.clear COLOR_BUFFER_BIT ∈ front ∧
        ∃ fbv, GlOp.bindFramebuffer FRAMEBUFFER fbv ∈ front) ∧
    ((frameStep (some 1) sampleFrameEnv).result = .panicked →
      GlOp.rearm ∉ (frameStep (some 1) sampleFrameEnv).ops ∧
      ∀ rest, runLoop (some 1) (sampleFrameEnv :: rest) = (frameStep (some 1) sampleFrameEnv).ops) :=
  c10_rearm_last_fail_stop (some 1) sampleFrameEnv
